import Mathlib

/-!
Verification of the flight-monitor backend gateway.

The Lean definitions below are shallow embeddings of the JavaScript worker
(`src/unnamed/part_003`).  Conventions used throughout:

* Millisecond timestamps (`Date.now()`) are modelled as `Int`.
* Coordinates and other JS numbers that the claims exercise on concrete
  rational inputs are modelled as `ℚ`; the Haversine path, which is genuinely
  real-valued (`Math.sin`, `Math.atan2`, ...), is modelled over `ℝ`.
* JS truthiness is made explicit at each use site: a numeric field is falsy
  exactly when it is `0` (or absent, modelled by `Option.none`), a string is
  falsy exactly when it is empty, an object is always truthy.
* Asynchronous external effects (OAuth grant, upstream fetch, object-store
  read) are passed in as explicit outcome values, and the mutable module
  globals are threaded as explicit state.
-/

/-! ### TokenBroker (`getAccessToken`)

JS globals: `tokenCache = { token: null, expiresAt: 0 }`,
`TOKEN_EXPIRY_BUFFER = 5*60*1000`, `TOKEN_EXPIRY_TIME = 30*60*1000`.
-/

structure TokenCache where
  token : Option String
  expiresAt : Int
deriving DecidableEq

def TOKEN_EXPIRY_BUFFER : Int := 5 * 60 * 1000

def TOKEN_EXPIRY_TIME : Int := 30 * 60 * 1000

/-- Outcome of the client-credentials grant HTTP call:
`ok tok` is a 2xx response whose JSON carries `access_token = tok`;
`noToken` is a 2xx response without an `access_token` field (the code throws);
`httpError` is a non-2xx response or a rejected fetch (the code throws). -/
inductive GrantResult where
  | ok (tok : String)
  | noToken
  | httpError
deriving DecidableEq

/-- The `catch`-protected refresh path of `getAccessToken`: on success the
token is cached with `expiresAt = now + TOKEN_EXPIRY_TIME`; on any failure the
cache is cleared (`token = null`, `expiresAt = 0`) and the error is rethrown.
The `Bool` component records that the network was reached. -/
def refreshToken (now : Int) (grant : GrantResult) :
    Except Unit String × TokenCache × Bool :=
  match grant with
  | .ok tok => (.ok tok, { token := some tok, expiresAt := now + TOKEN_EXPIRY_TIME }, true)
  | .noToken => (.error (), { token := none, expiresAt := 0 }, true)
  | .httpError => (.error (), { token := none, expiresAt := 0 }, true)

/-- `getAccessToken(clientId, clientSecret)`: returns the cached token with no
network call iff `tokenCache.token && tokenCache.expiresAt > now + TOKEN_EXPIRY_BUFFER`;
otherwise it performs the grant (`refreshToken`).  Result components:
the returned (or thrown) value, the token cache after the call, and whether the
token endpoint was contacted. -/
def getAccessToken (tc : TokenCache) (now : Int) (grant : GrantResult) :
    Except Unit String × TokenCache × Bool :=
  match tc.token with
  | some tok =>
    if tc.expiresAt > now + TOKEN_EXPIRY_BUFFER then (.ok tok, tc, false)
    else refreshToken now grant
  | none => refreshToken now grant

/-- C5: `getAccessToken` returns the cached token with no network call iff a
token is cached and `expiresAt > now + 5 min`; on that path nothing changes and
the cached token is returned.  Otherwise the token endpoint is contacted, and a
successful grant caches the fresh token with `expiresAt = now + 30 min`. -/
theorem getAccessToken_spec (tc : TokenCache) (now : Int) (grant : GrantResult) :
    ((getAccessToken tc now grant).2.2 = false ↔
      (tc.token ≠ none ∧ tc.expiresAt > now + TOKEN_EXPIRY_BUFFER)) ∧
    (tc.token ≠ none → tc.expiresAt > now + TOKEN_EXPIRY_BUFFER →
      getAccessToken tc now grant = (.ok (tc.token.getD ""), tc, false)) ∧
    (∀ t : String, ¬ (tc.token ≠ none ∧ tc.expiresAt > now + TOKEN_EXPIRY_BUFFER) →
      grant = .ok t →
      getAccessToken tc now grant =
        (.ok t, { token := some t, expiresAt := now + TOKEN_EXPIRY_TIME }, true)) := by
  rcases tc with ⟨tok, exp⟩
  cases tok with
  | none =>
    refine ⟨?_, ?_, ?_⟩
    · simp only [getAccessToken, refreshToken]
      cases grant <;> simp
    · intro h; simp at h
    · intro t _ hg; subst hg; simp [getAccessToken, refreshToken]
  | some s =>
    by_cases hv : exp > now + TOKEN_EXPIRY_BUFFER
    · refine ⟨?_, ?_, ?_⟩
      · simp [getAccessToken, hv]
      · intro _ _; simp [getAccessToken, hv]
      · intro t habs _; exact absurd ⟨by simp, hv⟩ habs
    · refine ⟨?_, ?_, ?_⟩
      · simp only [getAccessToken, refreshToken, hv, if_false]
        cases grant <;> simp [hv]
      · intro _ h; exact absurd h hv
      · intro t _ hg; subst hg; simp [getAccessToken, refreshToken, hv]

/-- Concrete C5 instances: a token expiring in 4 minutes (at `now = 1000000`)
triggers a network refresh; a token expiring in 10 minutes is served from
cache untouched. -/
theorem getAccessToken_spec_witness :
    (getAccessToken { token := some "tok", expiresAt := 1240000 } 1000000 (.ok "fresh")).2.2
      = true ∧
    getAccessToken { token := some "tok", expiresAt := 1600000 } 1000000 (.ok "fresh")
      = (.ok "tok", { token := some "tok", expiresAt := 1600000 }, false) := by
  constructor
  · have h := (getAccessToken_spec { token := some "tok", expiresAt := 1240000 }
      1000000 (.ok "fresh")).1
    rcases hb : (getAccessToken { token := some "tok", expiresAt := 1240000 }
        1000000 (.ok "fresh")).2.2 with _ | _
    · exact absurd ((h.mp hb).2) (by decide)
    · rfl
  · have h := (getAccessToken_spec { token := some "tok", expiresAt := 1600000 }
      1000000 (.ok "fresh")).2.1 (by simp) (by decide)
    simpa using h

/-! ### GeoMath: `isPointInBounds`

JS (`src/unnamed/part_003`, lines 828-839).  The guard
`!bounds || !bounds.north || !bounds.south || !bounds.east || !bounds.west`
treats a bound equal to `0` exactly like a missing bound (numeric truthiness),
returning `false`.  Longitude wraps: when `west > east` the test is
`longitude >= west || longitude <= east`.
-/

structure MapBounds where
  north : ℚ
  south : ℚ
  east : ℚ
  west : ℚ
deriving DecidableEq

def isPointInBounds (latitude longitude : ℚ) (bounds : Option MapBounds) : Bool :=
  match bounds with
  | none => false
  | some b =>
    if b.north = 0 ∨ b.south = 0 ∨ b.east = 0 ∨ b.west = 0 then false
    else
      let lonInBounds : Bool :=
        if b.west ≤ b.east then decide (longitude ≥ b.west ∧ longitude ≤ b.east)
        else decide (longitude ≥ b.west ∨ longitude ≤ b.east)
      decide (latitude ≥ b.south) && decide (latitude ≤ b.north) && lonInBounds

/-- C6: for bounds that pass the truthiness guard and a longitude in the
physical range `[-180, 180]`, `isPointInBounds` checks latitude against
`[south, north]` and longitude against `[west, east]` when `west ≤ east`,
and against the union `[west, 180] ∪ [-180, east]` when the viewport crosses
the antimeridian (`west > east`). -/
theorem isPointInBounds_antimeridian_spec (lat lon : ℚ) (b : MapBounds)
    (hn : b.north ≠ 0) (hs : b.south ≠ 0) (he : b.east ≠ 0) (hw : b.west ≠ 0)
    (hlo : -180 ≤ lon) (hhi : lon ≤ 180) :
    (isPointInBounds lat lon (some b) = true ↔
      (b.south ≤ lat ∧ lat ≤ b.north ∧
        (if b.west ≤ b.east then b.west ≤ lon ∧ lon ≤ b.east
         else (b.west ≤ lon ∧ lon ≤ 180) ∨ (-180 ≤ lon ∧ lon ≤ b.east)))) := by
  simp only [isPointInBounds, hn, hs, he, hw, or_self, if_neg, not_false_eq_true,
    or_false, false_or]
  by_cases hwe : b.west ≤ b.east
  · simp [hwe, and_assoc, ge_iff_le]
  · simp only [hwe, if_false, Bool.and_eq_true, decide_eq_true_eq, ge_iff_le]
    constructor
    · rintro ⟨⟨h1, h2⟩, h3⟩
      refine ⟨h1, h2, ?_⟩
      rcases h3 with h3 | h3
      · exact Or.inl ⟨h3, hhi⟩
      · exact Or.inr ⟨hlo, h3⟩
    · rintro ⟨h1, h2, h3⟩
      refine ⟨⟨h1, h2⟩, ?_⟩
      rcases h3 with ⟨h3, _⟩ | ⟨_, h3⟩
      · exact Or.inl h3
      · exact Or.inr h3

/-- Concrete C6 instances: the antimeridian-crossing box `west=170, east=-170`
(with latitude band `[-10, 10]`) accepts longitudes `175` and `-175` and
rejects `0`. -/
theorem isPointInBounds_antimeridian_spec_witness :
    isPointInBounds 5 175 (some { north := 10, south := -10, east := -170, west := 170 })
      = true ∧
    isPointInBounds 5 (-175) (some { north := 10, south := -10, east := -170, west := 170 })
      = true ∧
    isPointInBounds 5 0 (some { north := 10, south := -10, east := -170, west := 170 })
      = false := by
  refine ⟨?_, ?_, ?_⟩
  · exact (isPointInBounds_antimeridian_spec 5 175
      { north := 10, south := -10, east := -170, west := 170 }
      (by decide) (by decide) (by decide) (by decide) (by decide) (by decide)).mpr
      (by norm_num)
  · exact (isPointInBounds_antimeridian_spec 5 (-175)
      { north := 10, south := -10, east := -170, west := 170 }
      (by decide) (by decide) (by decide) (by decide) (by decide) (by decide)).mpr
      (by norm_num)
  · rcases hb : isPointInBounds 5 0
        (some { north := 10, south := -10, east := -170, west := 170 }) with _ | _
    · rfl
    · have h := (isPointInBounds_antimeridian_spec 5 0
        { north := 10, south := -10, east := -170, west := 170 }
        (by decide) (by decide) (by decide) (by decide) (by decide) (by decide)).mp hb
      norm_num at h

/-- C10: whenever any of the four bounds is exactly `0`, the truthiness guard
fires and `isPointInBounds` returns `false` for every point. -/
theorem zero_bound_rejects_all (lat lon : ℚ) (b : MapBounds)
    (h : b.north = 0 ∨ b.south = 0 ∨ b.east = 0 ∨ b.west = 0) :
    isPointInBounds lat lon (some b) = false := by
  simp [isPointInBounds, h]

/-- Concrete C10 instance: a well-formed viewport whose western edge sits on
the prime meridian (`west = 0`) rejects a point squarely inside it. -/
theorem zero_bound_rejects_all_witness :
    isPointInBounds 5 5 (some { north := 10, south := -10, east := 10, west := 0 })
      = false :=
  zero_bound_rejects_all 5 5 { north := 10, south := -10, east := 10, west := 0 }
    (Or.inr (Or.inr (Or.inr rfl)))

/-! ### AircraftRecordCache (`getAircraftInfoOnDemand`)

JS (`src/unnamed/part_003`, lines 406-412 and 618-683).  The cache is the
module global `aircraftRecordCache = { records: {}, maxSize: 1000 }`; each
entry is `{ data, timestamp }` where `data` may be `null` (a cached "not
found" sentinel).  We model `records` as an association list in JS property
insertion order (`Object.keys` order for non-index string keys), and the R2
read as an explicit `StoreResult`.
-/

/-- Static aircraft metadata, as read from `aircraft/<icao24>.json`.  A field
is `none` when absent; the enrichment code also ignores empty strings (JS
truthiness), which `truthyStr` captures. -/
structure AircraftRecord where
  registration : Option String
  typecode : Option String
  owner : Option String
  operator : Option String
  manufacturerName : Option String
  model : Option String
  serialNumber : Option String
  operatorCallsign : Option String
  built : Option String
deriving DecidableEq

structure CacheEntry where
  data : Option AircraftRecord
  timestamp : Int
deriving DecidableEq

def AIRCRAFT_RECORD_CACHE_MAX_AGE : Int := 60 * 60 * 1000

/-- `icao24.toLowerCase()`: character-wise lower-casing (ICAO24 keys are
ASCII hex strings, on which JS `toLowerCase` and `Char.toLower` agree). -/
def jsToLowerCase (s : String) : String :=
  ⟨s.data.map Char.toLower⟩

/-- `aircraftRecordCache.records[key]`. -/
def findRecord (key : String) : List (String × CacheEntry) → Option CacheEntry
  | [] => none
  | (k, e) :: rest => if k = key then some e else findRecord key rest

/-- `aircraftRecordCache.records[key] = e`: JS property assignment updates an
existing key in place and appends a new key at the end of insertion order. -/
def setRecord (key : String) (e : CacheEntry) :
    List (String × CacheEntry) → List (String × CacheEntry)
  | [] => [(key, e)]
  | (k, e0) :: rest =>
    if k = key then (key, e) :: rest else (k, e0) :: setRecord key e rest

/-- Comparator of the eviction sort: `(a, b) => a.timestamp - b.timestamp`
(ascending by timestamp; `Array.prototype.sort` is stable, as is
`List.insertionSort`). -/
def tsLe (a b : String × Int) : Prop := a.2 ≤ b.2

instance : DecidableRel tsLe := fun a b => inferInstanceAs (Decidable (a.2 ≤ b.2))

instance : IsTotal (String × Int) tsLe := ⟨fun a b => Int.le_total a.2 b.2⟩

instance : IsTrans (String × Int) tsLe := ⟨fun _ _ _ h1 h2 => le_trans h1 h2⟩

/-- The key list built by the eviction block (lines 658-671): sort the current
keys by entry timestamp and take the oldest `Math.floor(length * 0.1)` of
them.  For the cache sizes reachable here `Math.floor(length * 0.1)` equals
`length / 10` in natural-number division. -/
def evictKeys (records : List (String × CacheEntry)) : List String :=
  ((List.insertionSort tsLe (records.map fun p => (p.1, p.2.timestamp))).take
      (records.length / 10)).map Prod.fst

/-- `sortedByTime.forEach(({key}) => delete aircraftRecordCache.records[key])`. -/
def evictOldestEntries (records : List (String × CacheEntry)) :
    List (String × CacheEntry) :=
  records.filter fun p => decide (p.1 ∉ evictKeys records)

/-- Outcome of `r2Bucket.get(objectKey)` (plus body read and `JSON.parse`):
`notFound` is a `null` object, `found rec` a successfully parsed record,
`storeError` any thrown error (the surrounding `catch` returns `null` without
touching the cache). -/
inductive StoreResult where
  | notFound
  | found (rec : AircraftRecord)
  | storeError
deriving DecidableEq

/-- `getAircraftInfoOnDemand(r2Bucket, icao24)` with the bucket binding
present (`r2Bucket` truthy) and the would-be store outcome passed explicitly.
Result: the returned value, the cache afterwards, and whether the store was
actually contacted. -/
def getAircraftInfoOnDemand (cache : List (String × CacheEntry)) (maxSize : Nat)
    (now : Int) (icao24 : String) (store : StoreResult) :
    Option AircraftRecord × List (String × CacheEntry) × Bool :=
  if icao24 = "" then (none, cache, false)
  else
    let normalized := jsToLowerCase icao24
    let hit : Option (Option AircraftRecord) :=
      match findRecord normalized cache with
      | some e =>
        if now - e.timestamp < AIRCRAFT_RECORD_CACHE_MAX_AGE then some e.data else none
      | none => none
    match hit with
    | some d => (d, cache, false)
    | none =>
      match store with
      | .storeError => (none, cache, true)
      | .notFound => (none, setRecord normalized { data := none, timestamp := now } cache, true)
      | .found rec =>
        let cache2 :=
          if maxSize ≤ cache.length ∧ findRecord normalized cache = none
          then evictOldestEntries cache else cache
        (some rec, setRecord normalized { data := some rec, timestamp := now } cache2, true)

/-- C8: a cached "not found" sentinel (entry with `data = null`) younger than
the 1-hour maximum is returned as-is: the result is `null`, the cache is
untouched, and the object store is not contacted. -/
theorem cached_notFound_sentinel_spec (cache : List (String × CacheEntry))
    (maxSize : Nat) (now : Int) (icao24 : String) (store : StoreResult)
    (e : CacheEntry)
    (hkey : icao24 ≠ "")
    (hfind : findRecord (jsToLowerCase icao24) cache = some e)
    (hdata : e.data = none)
    (hage : now - e.timestamp < AIRCRAFT_RECORD_CACHE_MAX_AGE) :
    getAircraftInfoOnDemand cache maxSize now icao24 store = (none, cache, false) := by
  simp [getAircraftInfoOnDemand, hkey, hfind, hage, hdata]

/-- Concrete C8 instance: a 1000 ms old sentinel for `"ab"` (queried as
`"AB"`, exercising the lower-case normalization) short-circuits even though
the store would have found a record. -/
theorem cached_notFound_sentinel_spec_witness :
    getAircraftInfoOnDemand [("ab", { data := none, timestamp := 0 })] 1000 1000 "AB"
      (.found { registration := some "N123", typecode := none, owner := none,
                operator := none, manufacturerName := none, model := none,
                serialNumber := none, operatorCallsign := none, built := none })
      = (none, [("ab", { data := none, timestamp := 0 })], false) :=
  cached_notFound_sentinel_spec [("ab", { data := none, timestamp := 0 })] 1000 1000 "AB"
    (.found { registration := some "N123", typecode := none, owner := none,
              operator := none, manufacturerName := none, model := none,
              serialNumber := none, operatorCallsign := none, built := none })
    { data := none, timestamp := 0 }
    (by decide) (by decide) rfl (by decide)

/-! ### Eviction helper lemmas (association lists with distinct keys) -/

theorem findRecord_eq_none_iff (key : String) (l : List (String × CacheEntry)) :
    findRecord key l = none ↔ key ∉ l.map Prod.fst := by
  induction l with
  | nil => simp [findRecord]
  | cons c cs ih =>
    by_cases hc : c.1 = key
    · simp [findRecord, hc]
    · simp [findRecord, hc, ih, Ne.symm hc]

theorem setRecord_of_not_mem (key : String) (e : CacheEntry)
    (l : List (String × CacheEntry)) (h : key ∉ l.map Prod.fst) :
    setRecord key e l = l ++ [(key, e)] := by
  induction l with
  | nil => simp [setRecord]
  | cons c cs ih =>
    simp only [List.map_cons, List.mem_cons, not_or] at h
    simp [setRecord, Ne.symm h.1, ih h.2]

theorem eq_of_mem_of_nodup_keys {α β : Type} {l : List (α × β)}
    (h : (l.map Prod.fst).Nodup) {a b : α × β} (ha : a ∈ l) (hb : b ∈ l)
    (hab : a.1 = b.1) : a = b := by
  induction l with
  | nil => cases ha
  | cons c cs ih =>
    simp only [List.map_cons, List.nodup_cons] at h
    rcases List.mem_cons.mp ha with ha1 | ha1 <;>
      rcases List.mem_cons.mp hb with hb1 | hb1
    · exact ha1.trans hb1.symm
    · subst ha1
      exact absurd (hab ▸ List.mem_map_of_mem Prod.fst hb1) h.1
    · subst hb1
      exact absurd (hab ▸ List.mem_map_of_mem Prod.fst ha1) h.1
    · exact ih h.2 ha1 hb1

theorem length_filter_mem_keys {α β : Type} [DecidableEq α] :
    ∀ (l : List (α × β)) (ks : List α), (l.map Prod.fst).Nodup → ks.Nodup →
      (∀ k ∈ ks, k ∈ l.map Prod.fst) →
      (l.filter fun p => decide (p.1 ∈ ks)).length = ks.length
  | [], ks, _, _, hsub => by
    have : ks = [] :=
      List.eq_nil_iff_forall_not_mem.mpr fun k hk => by simpa using hsub k hk
    simp [this]
  | c :: cs, ks, hnd, hks, hsub => by
    simp only [List.map_cons, List.nodup_cons] at hnd
    by_cases hmem : c.1 ∈ ks
    · have hcongr : ∀ p ∈ cs, decide (p.1 ∈ ks) = decide (p.1 ∈ ks.erase c.1) := by
        intro p hp
        have hne : p.1 ≠ c.1 := by
          intro he
          exact hnd.1 (he ▸ List.mem_map_of_mem Prod.fst hp)
        simp [List.Nodup.mem_erase_iff hks, hne]
      have hrec := length_filter_mem_keys cs (ks.erase c.1) hnd.2 (hks.erase c.1)
        (fun k hk => by
          have hkks := List.erase_subset c.1 ks hk
          have hne : k ≠ c.1 := ((List.Nodup.mem_erase_iff hks).mp hk).1
          rcases List.mem_cons.mp (hsub k hkks) with h1 | h1
          · exact absurd h1 hne
          · exact h1)
      have hlen : (ks.erase c.1).length = ks.length - 1 := List.length_erase_of_mem hmem
      have hpos : 0 < ks.length := List.length_pos_of_mem hmem
      calc ((c :: cs).filter fun p => decide (p.1 ∈ ks)).length
          = ((cs.filter fun p => decide (p.1 ∈ ks)).length) + 1 := by
            simp [List.filter_cons, hmem]
        _ = ((cs.filter fun p => decide (p.1 ∈ ks.erase c.1)).length) + 1 := by
            rw [List.filter_congr hcongr]
        _ = ks.length := by rw [hrec, hlen]; omega
    · have hrec := length_filter_mem_keys cs ks hnd.2 hks
        (fun k hk => by
          rcases List.mem_cons.mp (hsub k hk) with h1 | h1
          · exact absurd (h1 ▸ hk) hmem
          · exact h1)
      simpa [List.filter_cons, hmem] using hrec

/-- Keys of the mapped timestamp list are the cache keys. -/
theorem map_fst_timestamps (records : List (String × CacheEntry)) :
    (records.map fun p => (p.1, p.2.timestamp)).map Prod.fst = records.map Prod.fst := by
  simp [List.map_map]

theorem evictOldestEntries_subset (records : List (String × CacheEntry)) :
    ∀ q ∈ evictOldestEntries records, q ∈ records := fun q hq =>
  (List.filter_sublist records).subset hq

/-- The sorted-and-mapped key list is a permutation of the cache's key list. -/
theorem evict_sort_perm (records : List (String × CacheEntry)) :
    List.Perm
      ((List.insertionSort tsLe (records.map fun p => (p.1, p.2.timestamp))).map Prod.fst)
      (records.map Prod.fst) :=
  ((List.perm_insertionSort tsLe _).map Prod.fst).trans
    (by rw [map_fst_timestamps])

theorem evictKeys_nodup (records : List (String × CacheEntry))
    (hnodup : (records.map Prod.fst).Nodup) : (evictKeys records).Nodup := by
  rw [evictKeys, List.map_take]
  exact ((evict_sort_perm records).nodup_iff.mpr hnodup).sublist
    (List.take_sublist _ _)

theorem evictKeys_subset (records : List (String × CacheEntry)) :
    ∀ x ∈ evictKeys records, x ∈ records.map Prod.fst := by
  intro x hx
  rw [evictKeys, List.map_take] at hx
  exact (evict_sort_perm records).mem_iff.mp (List.mem_of_mem_take hx)

theorem evictKeys_length (records : List (String × CacheEntry)) :
    (evictKeys records).length = records.length / 10 := by
  rw [evictKeys, List.map_take, List.length_take]
  have hsl :
      ((List.insertionSort tsLe (records.map fun p => (p.1, p.2.timestamp))).map
        Prod.fst).length = records.length := by
    rw [List.length_map, (List.perm_insertionSort tsLe _).length_eq, List.length_map]
  rw [hsl]
  exact Nat.min_eq_left (Nat.div_le_self _ _)

theorem evictOldestEntries_length (records : List (String × CacheEntry))
    (hnodup : (records.map Prod.fst).Nodup) :
    (evictOldestEntries records).length = records.length - records.length / 10 := by
  have hsplit := List.length_eq_length_filter_add
    (l := records) (fun p => decide (p.1 ∈ evictKeys records))
  have hin : (records.filter fun p => decide (p.1 ∈ evictKeys records)).length
      = (evictKeys records).length :=
    length_filter_mem_keys records (evictKeys records) hnodup
      (evictKeys_nodup records hnodup) (evictKeys_subset records)
  have hnotform : evictOldestEntries records =
      (records.filter fun p => !(decide (p.1 ∈ evictKeys records))) := by
    rw [evictOldestEntries]
    simp
  rw [hnotform]
  have hkl := evictKeys_length records
  omega

/-- Every evicted entry is at least as old as every surviving entry: the
eviction really removes the oldest `length / 10` entries by timestamp. -/
theorem evictOldestEntries_oldest (records : List (String × CacheEntry))
    (hnodup : (records.map Prod.fst).Nodup) :
    ∀ p ∈ records, p.1 ∉ (evictOldestEntries records).map Prod.fst →
      ∀ q ∈ evictOldestEntries records, p.2.timestamp ≤ q.2.timestamp := by
  intro p hp hpgone q hq
  have hperm : List.Perm
      (List.insertionSort tsLe (records.map fun p => (p.1, p.2.timestamp)))
      (records.map fun p => (p.1, p.2.timestamp)) :=
    List.perm_insertionSort tsLe _
  have hsnodup :
      ((List.insertionSort tsLe (records.map fun p => (p.1, p.2.timestamp))).map
        Prod.fst).Nodup :=
    (evict_sort_perm records).nodup_iff.mpr hnodup
  -- `p` was evicted, so its key is among the oldest tenth of keys
  have hpks : p.1 ∈ evictKeys records := by
    by_contra hno
    exact hpgone (List.mem_map_of_mem Prod.fst
      (List.mem_filter.mpr ⟨hp, by simpa [evictOldestEntries] using hno⟩))
  -- `q` survived the filter
  have hqrec : q ∈ records := (List.filter_sublist records).subset hq
  have hqks : q.1 ∉ evictKeys records := by
    simpa [evictOldestEntries] using (List.mem_filter.mp hq).2
  -- both entries live in the sorted list
  have hps : (p.1, p.2.timestamp) ∈
      List.insertionSort tsLe (records.map fun p => (p.1, p.2.timestamp)) :=
    hperm.mem_iff.mpr (List.mem_map_of_mem _ hp)
  have hqs : (q.1, q.2.timestamp) ∈
      List.insertionSort tsLe (records.map fun p => (p.1, p.2.timestamp)) :=
    hperm.mem_iff.mpr (List.mem_map_of_mem _ hqrec)
  -- `p`'s entry sits in the taken prefix
  rw [evictKeys] at hpks
  obtain ⟨a, hatake, hafst⟩ := List.mem_map.mp hpks
  have haeq : a = (p.1, p.2.timestamp) :=
    eq_of_mem_of_nodup_keys hsnodup (List.mem_of_mem_take hatake) hps hafst
  have hptake : (p.1, p.2.timestamp) ∈
      (List.insertionSort tsLe (records.map fun p => (p.1, p.2.timestamp))).take
        (records.length / 10) := haeq ▸ hatake
  -- `q`'s entry sits in the dropped suffix
  have hqdrop : (q.1, q.2.timestamp) ∈
      (List.insertionSort tsLe (records.map fun p => (p.1, p.2.timestamp))).drop
        (records.length / 10) := by
    have hqs2 := hqs
    rw [← List.take_append_drop (records.length / 10)
      (List.insertionSort tsLe (records.map fun p => (p.1, p.2.timestamp)))] at hqs2
    rcases List.mem_append.mp hqs2 with h1 | h1
    · exact absurd (by rw [evictKeys]; exact List.mem_map_of_mem Prod.fst h1) hqks
    · exact h1
  -- the sorted prefix is pointwise `tsLe` the suffix
  have hsorted : List.Pairwise tsLe
      (List.insertionSort tsLe (records.map fun p => (p.1, p.2.timestamp))) :=
    List.sorted_insertionSort tsLe _
  have hsplit : List.Pairwise tsLe
      ((List.insertionSort tsLe (records.map fun p => (p.1, p.2.timestamp))).take
        (records.length / 10) ++
       (List.insertionSort tsLe (records.map fun p => (p.1, p.2.timestamp))).drop
        (records.length / 10)) := by
    rw [List.take_append_drop]; exact hsorted
  exact (List.pairwise_append.mp hsplit).2.2 _ hptake _ hqdrop

/-- C4 (amended): inserting a new key at or above capacity evicts the oldest
tenth of the entries *only on the path where the store finds the record*.
For a found record: the result is the fetched record, the store was
contacted, the new cache is the old one with the oldest `length / 10` entries
(by timestamp) deleted and the new entry appended, its size is
`length - length / 10 + 1`, every surviving entry comes from the old cache,
and every evicted entry is at least as old as every survivor. -/
theorem eviction_on_found_insert_spec (cache : List (String × CacheEntry))
    (maxSize : Nat) (now : Int) (icao24 : String) (rec : AircraftRecord)
    (hkey : icao24 ≠ "")
    (hnew : findRecord (jsToLowerCase icao24) cache = none)
    (hfull : maxSize ≤ cache.length)
    (hnodup : (cache.map Prod.fst).Nodup) :
    getAircraftInfoOnDemand cache maxSize now icao24 (.found rec)
      = (some rec,
         evictOldestEntries cache ++
           [(jsToLowerCase icao24, { data := some rec, timestamp := now })],
         true) ∧
    (evictOldestEntries cache).length = cache.length - cache.length / 10 ∧
    (∀ q ∈ evictOldestEntries cache, q ∈ cache) ∧
    (∀ p ∈ cache, p.1 ∉ (evictOldestEntries cache).map Prod.fst →
      ∀ q ∈ evictOldestEntries cache, p.2.timestamp ≤ q.2.timestamp) := by
  have hkeygone : jsToLowerCase icao24 ∉ (evictOldestEntries cache).map Prod.fst := by
    intro hmem
    obtain ⟨p, hp, hpk⟩ := List.mem_map.mp hmem
    exact (findRecord_eq_none_iff _ _).mp hnew
      (hpk ▸ List.mem_map_of_mem Prod.fst (evictOldestEntries_subset cache p hp))
  have hset := setRecord_of_not_mem (jsToLowerCase icao24)
    { data := some rec, timestamp := now } (evictOldestEntries cache) hkeygone
  refine ⟨?_, evictOldestEntries_length cache hnodup,
    evictOldestEntries_subset cache, evictOldestEntries_oldest cache hnodup⟩
  simp [getAircraftInfoOnDemand, hkey, hnew, hfull, hset]

/-- A 10-entry demonstration cache with distinct keys and increasing
timestamps (entry `"k0"` is the oldest). -/
def evictDemoCache : List (String × CacheEntry) :=
  [("k0", { data := none, timestamp := 1 }), ("k1", { data := none, timestamp := 2 }),
   ("k2", { data := none, timestamp := 3 }), ("k3", { data := none, timestamp := 4 }),
   ("k4", { data := none, timestamp := 5 }), ("k5", { data := none, timestamp := 6 }),
   ("k6", { data := none, timestamp := 7 }), ("k7", { data := none, timestamp := 8 }),
   ("k8", { data := none, timestamp := 9 }), ("k9", { data := none, timestamp := 10 })]

/-- C4 counterexample: inserting a new (1 + maxSize)-th distinct key into a
cache already holding `maxSize` keys does *not* evict anything when the store
reports "not found": the sentinel insert (lines 644-651) runs before the
eviction block and skips it, so the cache grows to `maxSize + 1` entries and
the oldest entry survives — the claimed "oldest 10% are evicted on every
insertion of a new key at capacity" fails on this input. -/
theorem eviction_skipped_on_notFound_insert :
    (getAircraftInfoOnDemand evictDemoCache 10 1000 "newkey" .notFound).2.1.length = 11 ∧
    findRecord "k0" (getAircraftInfoOnDemand evictDemoCache 10 1000 "newkey" .notFound).2.1
      = some { data := none, timestamp := 1 } ∧
    (getAircraftInfoOnDemand evictDemoCache 10 1000 "newkey" .notFound).1 = none := by
  decide

/-- Concrete instance of the amended C4 statement: the same full cache with a
*found* record does evict: the new cache has `10 - 10/10 + 1 = 10` entries and
the oldest key `"k0"` is gone. -/
theorem eviction_on_found_insert_spec_witness :
    (getAircraftInfoOnDemand evictDemoCache 10 1000 "newkey"
        (.found { registration := none, typecode := none, owner := none,
                  operator := none, manufacturerName := none, model := none,
                  serialNumber := none, operatorCallsign := none, built := none })).2.1.length
      = 10 := by
  have h := eviction_on_found_insert_spec evictDemoCache 10 1000 "newkey"
    { registration := none, typecode := none, owner := none,
      operator := none, manufacturerName := none, model := none,
      serialNumber := none, operatorCallsign := none, built := none }
    (by decide) (by decide) (by decide) (by decide)
  rw [h.1]
  simp only [List.length_append, h.2.1]
  decide

/-! ### FlightGateway scans: `processFlights` and `processMultipleFlights`

JS (`src/unnamed/part_003`, lines 754-944).  An OpenSky state vector is a
fixed-order array; the fields the code reads are modelled as a structure
(`flight[0]` icao24, `flight[1]` callsign, `flight[5]` longitude, `flight[6]`
latitude, `flight[7]` barometric altitude, `flight[8]` on-ground flag,
`flight[9]` velocity, `flight[10]` heading, `flight[11]` vertical rate).
Numeric array slots may be `null` (`Option.none`); the on-ground slot is
compared with `=== true`, so only a literal `true` skips.

The region containment test `isPointInRegion(lat, lon, MONITORING_REGION)` is
floating-point Haversine code (see the `ℝ`-valued model further below); for
these scans it is abstracted as an arbitrary `inRegionFn : ℚ → ℚ → Bool`
oracle, which also lets the theorems quantify over *every* possible region
verdict.  `getAircraftInfoOnDemand` results are likewise abstracted as a
resolved `lookup` snapshot keyed by lower-cased icao24.
-/

structure RawFlight where
  icao24 : String
  callsign : Option String
  longitude : Option ℚ
  latitude : Option ℚ
  baroAltitude : Option ℚ
  onGround : Option Bool
  velocity : Option ℚ
  heading : Option ℚ
  verticalRate : Option ℚ
deriving DecidableEq

/-- The response shape assembled for one selected flight. -/
structure FlightData where
  icao24 : String
  callsign : Option String
  origin : String
  destination : String
  latitude : ℚ
  longitude : ℚ
  baroAltitude : Option ℚ
  velocity : Option ℚ
  heading : Option ℚ
  verticalRate : Option ℚ
  inRegion : Bool
  registration : Option String
  aircraftType : Option String
  owner : Option String
  operator : Option String
  manufacturer : Option String
  model : Option String
  serialNumber : Option String
  operatorCallsign : Option String
  built : Option String
deriving DecidableEq

/-- JS string truthiness: non-empty. -/
def truthyStr : Option String → Bool
  | some s => !s.isEmpty
  | none => false

/-- `getAirportInfo(icao24, callsign)`: origin is the first four characters of
a truthy callsign, else `'Unknown'`; destination is always `'Unknown'`. -/
def getAirportInfo (callsign : Option String) : String × String :=
  (match callsign with
   | some s => if s.isEmpty then "Unknown" else s.take 4
   | none => "Unknown",
   "Unknown")

/-- The `flightData` object literal common to both scans (`callsign:
flight[1] || null` maps an empty callsign to `null`). -/
def mkFlightData (f : RawFlight) (lat lon : ℚ) (inRegion : Bool) : FlightData :=
  { icao24 := f.icao24
    callsign := match f.callsign with
      | some s => if s.isEmpty then none else some s
      | none => none
    origin := (getAirportInfo f.callsign).1
    destination := (getAirportInfo f.callsign).2
    latitude := lat
    longitude := lon
    baroAltitude := f.baroAltitude
    velocity := f.velocity
    heading := f.heading
    verticalRate := f.verticalRate
    inRegion := inRegion
    registration := none, aircraftType := none, owner := none, operator := none,
    manufacturer := none, model := none, serialNumber := none,
    operatorCallsign := none, built := none }

/-- The per-field enrichment copy (`if (aircraftInfo.registration)
flightData.registration = aircraftInfo.registration` and so on; each copy is
guarded by JS string truthiness). -/
def applyAircraftInfo (fd : FlightData) (info : AircraftRecord) : FlightData :=
  { fd with
    registration := if truthyStr info.registration then info.registration else fd.registration
    aircraftType := if truthyStr info.typecode then info.typecode else fd.aircraftType
    owner := if truthyStr info.owner then info.owner else fd.owner
    operator := if truthyStr info.operator then info.operator else fd.operator
    manufacturer := if truthyStr info.manufacturerName then info.manufacturerName else fd.manufacturer
    model := if truthyStr info.model then info.model else fd.model
    serialNumber := if truthyStr info.serialNumber then info.serialNumber else fd.serialNumber
    operatorCallsign := if truthyStr info.operatorCallsign then info.operatorCallsign else fd.operatorCallsign
    built := if truthyStr info.built then info.built else fd.built }

/-- `processFlights(flights, r2Bucket)`: first airborne flight with truthy
coordinates (`if (latitude && longitude)`: a coordinate that is exactly `0`
or `null` fails the check) that the region test accepts, enriched and with
`inRegion: true`.  A `lookup` returning `none` covers both a missing bucket
and an unenriched aircraft (`if (aircraftInfo)`). -/
def processFlights (inRegionFn : ℚ → ℚ → Bool)
    (lookup : String → Option AircraftRecord) : List RawFlight → Option FlightData
  | [] => none
  | f :: rest =>
    if f.onGround = some true then processFlights inRegionFn lookup rest
    else
      match f.latitude, f.longitude with
      | some lat, some lon =>
        if lat ≠ 0 ∧ lon ≠ 0 then
          if inRegionFn lat lon then
            some (match lookup (jsToLowerCase f.icao24) with
              | some info => applyAircraftInfo (mkFlightData f lat lon true) info
              | none => mkFlightData f lat lon true)
          else processFlights inRegionFn lookup rest
        else processFlights inRegionFn lookup rest
      | _, _ => processFlights inRegionFn lookup rest

/-- First pass of `processMultipleFlights`: collect up to `maxFlights`
airborne, truthy-coordinate flights selected by the viewport bounds when
given, else by the region test; `inRegion` is always evaluated against the
region.  The `break` after the push is the `maxFlights ≤ acc.length` check. -/
def collectFlights (inRegionFn : ℚ → ℚ → Bool) (bounds : Option MapBounds)
    (maxFlights : Nat) : List RawFlight → List FlightData → List FlightData
  | [], acc => acc
  | f :: rest, acc =>
    if f.onGround = some true then collectFlights inRegionFn bounds maxFlights rest acc
    else
      match f.latitude, f.longitude with
      | some lat, some lon =>
        if lat ≠ 0 ∧ lon ≠ 0 then
          let inRegion := inRegionFn lat lon
          let inArea := match bounds with
            | some _ => isPointInBounds lat lon bounds
            | none => inRegion
          if inArea then
            let acc2 := acc ++ [mkFlightData f lat lon inRegion]
            if maxFlights ≤ acc2.length then acc2
            else collectFlights inRegionFn bounds maxFlights rest acc2
          else collectFlights inRegionFn bounds maxFlights rest acc
        else collectFlights inRegionFn bounds maxFlights rest acc
      | _, _ => collectFlights inRegionFn bounds maxFlights rest acc

/-- `processMultipleFlights(flights, maxFlights, bounds, r2Bucket)`: collect,
then enrich every selected flight from the parallel lookup results (keyed by
lower-cased icao24; a falsy icao24 is never looked up). -/
def processMultipleFlights (inRegionFn : ℚ → ℚ → Bool)
    (lookup : String → Option AircraftRecord) (flights : List RawFlight)
    (maxFlights : Nat) (bounds : Option MapBounds) : List FlightData :=
  (collectFlights inRegionFn bounds maxFlights flights []).map fun fd =>
    if fd.icao24.isEmpty then fd
    else
      match lookup (jsToLowerCase fd.icao24) with
      | some info => applyAircraftInfo fd info
      | none => fd

/-- C9: a report whose latitude or longitude is exactly `0` fails the
truthiness position check `if (latitude && longitude)` in both scans, so it
is skipped outright: dropping it changes neither the single-flight result
nor the multi-flight selection, whatever the region oracle, the bounds, the
enrichment snapshot, or the rest of the feed — even if the region or bounds
would contain the point. -/
theorem zero_coordinate_flight_skipped (inRegionFn : ℚ → ℚ → Bool)
    (lookup : String → Option AircraftRecord) (f : RawFlight)
    (rest : List RawFlight)
    (h : f.latitude = some 0 ∨ f.longitude = some 0) :
    processFlights inRegionFn lookup (f :: rest) = processFlights inRegionFn lookup rest ∧
    (∀ (bounds : Option MapBounds) (maxFlights : Nat) (acc : List FlightData),
      collectFlights inRegionFn bounds maxFlights (f :: rest) acc =
        collectFlights inRegionFn bounds maxFlights rest acc) ∧
    (∀ (bounds : Option MapBounds) (maxFlights : Nat),
      processMultipleFlights inRegionFn lookup (f :: rest) maxFlights bounds =
        processMultipleFlights inRegionFn lookup rest maxFlights bounds) := by
  have hskip : ∀ (lat lon : ℚ), f.latitude = some lat → f.longitude = some lon →
      ¬ (lat ≠ 0 ∧ lon ≠ 0) := by
    rintro lat lon hlat hlon ⟨h1, h2⟩
    rcases h with h | h
    · rw [hlat] at h
      exact h1 (Option.some.inj h)
    · rw [hlon] at h
      exact h2 (Option.some.inj h)
  refine ⟨?_, ?_, ?_⟩
  · rw [processFlights]
    rcases hog : f.onGround with _ | b
    · rcases hlat : f.latitude with _ | lat
      · simp
      · rcases hlon : f.longitude with _ | lon
        · simp
        · simp [hskip lat lon hlat hlon]
    · by_cases hb : b = true
      · subst hb; simp
      · rcases hlat : f.latitude with _ | lat
        · simp [hb]
        · rcases hlon : f.longitude with _ | lon
          · simp [hb]
          · simp [hb, hskip lat lon hlat hlon]
  · intro bounds maxFlights acc
    rw [collectFlights]
    rcases hog : f.onGround with _ | b
    · rcases hlat : f.latitude with _ | lat
      · simp
      · rcases hlon : f.longitude with _ | lon
        · simp
        · simp [hskip lat lon hlat hlon]
    · by_cases hb : b = true
      · subst hb; simp
      · rcases hlat : f.latitude with _ | lat
        · simp [hb]
        · rcases hlon : f.longitude with _ | lon
          · simp [hb]
          · simp [hb, hskip lat lon hlat hlon]
  · intro bounds maxFlights
    rw [processMultipleFlights, processMultipleFlights]
    congr 1
    rw [collectFlights]
    rcases hog : f.onGround with _ | b
    · rcases hlat : f.latitude with _ | lat
      · simp
      · rcases hlon : f.longitude with _ | lon
        · simp
        · simp [hskip lat lon hlat hlon]
    · by_cases hb : b = true
      · subst hb; simp
      · rcases hlat : f.latitude with _ | lat
        · simp [hb]
        · rcases hlon : f.longitude with _ | lon
          · simp [hb]
          · simp [hb, hskip lat lon hlat hlon]

/-- Concrete C9 instance: a flight sitting exactly on the equator
(latitude `0`, longitude `50`) is neither returned by the single-flight scan
nor selected for the map, even with a region oracle that accepts everything
and no viewport bounds. -/
theorem zero_coordinate_flight_skipped_witness :
    processFlights (fun _ _ => true) (fun _ => none)
      [{ icao24 := "abc123", callsign := some "TEST01", longitude := some 50,
         latitude := some 0, baroAltitude := none, onGround := some false,
         velocity := none, heading := none, verticalRate := none }] = none ∧
    processMultipleFlights (fun _ _ => true) (fun _ => none)
      [{ icao24 := "abc123", callsign := some "TEST01", longitude := some 50,
         latitude := some 0, baroAltitude := none, onGround := some false,
         velocity := none, heading := none, verticalRate := none }] 50 none = [] := by
  have h := zero_coordinate_flight_skipped (fun _ _ => true) (fun _ => none)
    { icao24 := "abc123", callsign := some "TEST01", longitude := some 50,
      latitude := some 0, baroAltitude := none, onGround := some false,
      velocity := none, heading := none, verticalRate := none }
    [] (Or.inl rfl)
  exact ⟨h.1.trans rfl, (h.2.2 none 50).trans rfl⟩

/-! ### SnapshotCache fallback for `/api/map-flights`

JS (`src/unnamed/part_003`, lines 398-404 and 1477-1495).  When
`fetchOpenSkyData` returns `null` (rate-limit skip or upstream failure), the
handler keeps `flights = []` unless the cached snapshot is non-empty, younger
than `FLIGHTS_CACHE_MAX_AGE`, and its bounds are similar to the requested
ones (`!bounds || !lastFlightsCache.bounds ||` each absolute difference
`< 1`).
-/

structure FlightsCache where
  flights : List FlightData
  timestamp : Int
  bounds : Option MapBounds
deriving DecidableEq

def FLIGHTS_CACHE_MAX_AGE : Int := 30 * 1000

/-- Each of north/south/east/west within one degree (strict `< 1`). -/
def boundsSimilar (b cb : MapBounds) : Bool :=
  decide (|b.north - cb.north| < 1) && decide (|b.south - cb.south| < 1) &&
  decide (|b.east - cb.east| < 1) && decide (|b.west - cb.west| < 1)

/-- `!bounds || !lastFlightsCache.bounds || (…all four diffs < 1…)`: an
absent request or snapshot bounds object is truthy-checked first, so a
missing side counts as a match. -/
def boundsMatchCheck (bounds cbounds : Option MapBounds) : Bool :=
  match bounds, cbounds with
  | some b, some cb => boundsSimilar b cb
  | _, _ => true

/-- The fallback branch of the `/api/map-flights` handler: the flights value
sent to the client when the upstream fetch produced nothing. -/
def mapFlightsFallback (cache : FlightsCache) (bounds : Option MapBounds)
    (now : Int) : List FlightData :=
  let cacheAge := now - cache.timestamp
  if 0 < cache.flights.length ∧ cacheAge < FLIGHTS_CACHE_MAX_AGE then
    if boundsMatchCheck bounds cache.bounds then cache.flights else []
  else []

/-- C2: with a request carrying bounds and a snapshot that stored bounds, the
fallback serves the cached flight list exactly when the snapshot is younger
than 30 seconds and every stored bound is within one degree of the requested
one; in every other case the client gets an empty list.  (When the cached
list is itself empty, both sides are the empty list.) -/
theorem mapFlightsFallback_spec (cache : FlightsCache) (b cb : MapBounds)
    (now : Int) (hcb : cache.bounds = some cb) :
    mapFlightsFallback cache (some b) now =
      if now - cache.timestamp < FLIGHTS_CACHE_MAX_AGE ∧
         |b.north - cb.north| < 1 ∧ |b.south - cb.south| < 1 ∧
         |b.east - cb.east| < 1 ∧ |b.west - cb.west| < 1
      then cache.flights else [] := by
  simp only [mapFlightsFallback, hcb, boundsMatchCheck]
  have hbs : boundsSimilar b cb = true ↔
      (|b.north - cb.north| < 1 ∧ |b.south - cb.south| < 1 ∧
       |b.east - cb.east| < 1 ∧ |b.west - cb.west| < 1) := by
    simp [boundsSimilar, and_assoc]
  split_ifs with h1 h2 h3 h4 h5
  · rfl
  · exact absurd ⟨h1.2, hbs.mp h2⟩ h3
  · exact absurd (hbs.mpr h4.2) h2
  · rfl
  · have hlen : cache.flights.length = 0 := by
      by_contra hne
      exact h1 ⟨Nat.pos_of_ne_zero hne, h5.1⟩
    rw [List.eq_nil_of_length_eq_zero hlen]
  · rfl

/-- Concrete C2 instances: a 20-second-old snapshot with bounds
`{n:34, s:33, e:-111, w:-112}` and one cached flight is served for a request
whose bounds differ by half a degree in each dimension; a request two degrees
north is answered with the empty list. -/
theorem mapFlightsFallback_spec_witness :
    mapFlightsFallback
      { flights := [mkFlightData
          { icao24 := "abc123", callsign := some "TEST01", longitude := some (-111.5),
            latitude := some (33.5), baroAltitude := none, onGround := some false,
            velocity := none, heading := none, verticalRate := none } 33.5 (-111.5) true],
        timestamp := 0,
        bounds := some { north := 34, south := 33, east := -111, west := -112 } }
      (some { north := 34.5, south := 33.5, east := -110.5, west := -111.5 }) 20000
      = [mkFlightData
          { icao24 := "abc123", callsign := some "TEST01", longitude := some (-111.5),
            latitude := some (33.5), baroAltitude := none, onGround := some false,
            velocity := none, heading := none, verticalRate := none } 33.5 (-111.5) true] ∧
    mapFlightsFallback
      { flights := [mkFlightData
          { icao24 := "abc123", callsign := some "TEST01", longitude := some (-111.5),
            latitude := some (33.5), baroAltitude := none, onGround := some false,
            velocity := none, heading := none, verticalRate := none } 33.5 (-111.5) true],
        timestamp := 0,
        bounds := some { north := 34, south := 33, east := -111, west := -112 } }
      (some { north := 36, south := 33.5, east := -110.5, west := -111.5 }) 20000
      = [] := by
  constructor
  · rw [mapFlightsFallback_spec _ { north := 34.5, south := 33.5, east := -110.5, west := -111.5 }
      { north := 34, south := 33, east := -111, west := -112 } 20000 rfl]
    rw [if_pos]
    refine ⟨by decide, ?_, ?_, ?_, ?_⟩ <;> norm_num [abs_lt]
  · rw [mapFlightsFallback_spec _ { north := 36, south := 33.5, east := -110.5, west := -111.5 }
      { north := 34, south := 33, east := -111, west := -112 } 20000 rfl]
    rw [if_neg]
    rintro ⟨-, habs, -⟩
    rw [abs_lt] at habs
    norm_num at habs

/-! ### RegionStore: the `POST /api/region` handler

JS (`src/unnamed/part_003`, lines 386-396 and 1514-1593).  The handler
validates the body, then replaces the module global `MONITORING_REGION`.
Note the radius default: `const radius = radiusMiles || 3` — JS `||` tests
truthiness, so `radiusMiles: 0` is replaced by the default `3` *before* the
`radius <= 0 || radius > 100` guard runs.
-/

structure RegionCenter where
  lat : ℚ
  lon : ℚ
deriving DecidableEq

structure MonitoringRegion where
  center : RegionCenter
  radiusMiles : ℚ
deriving DecidableEq

/-- `DEFAULT_REGION` (Phoenix area). -/
def DEFAULT_REGION : MonitoringRegion :=
  { center := { lat := 33.47582267755572, lon := -111.70391851974681 }, radiusMiles := 3 }

/-- Parsed request body: `center` may be absent or lack numeric `lat`/`lon`
(`typeof … !== 'number'`); `radiusMiles` may be absent. -/
structure RegionBodyCenter where
  lat : Option ℚ
  lon : Option ℚ
deriving DecidableEq

structure RegionBody where
  center : Option RegionBodyCenter
  radiusMiles : Option ℚ
deriving DecidableEq

/-- The `POST /api/region` handler on a successfully parsed body: returns the
HTTP status and the monitoring region afterwards (unchanged on every 400). -/
def handlePostRegion (body : RegionBody) (current : MonitoringRegion) :
    Nat × MonitoringRegion :=
  match body.center with
  | none => (400, current)
  | some c =>
    match c.lat, c.lon with
    | some lat, some lon =>
      if lat < -90 ∨ lat > 90 ∨ lon < -180 ∨ lon > 180 then (400, current)
      else
        let radius : ℚ := match body.radiusMiles with
          | some r => if r = 0 then 3 else r
          | none => 3
        if radius ≤ 0 ∨ radius > 100 then (400, current)
        else (200, { center := { lat := lat, lon := lon }, radiusMiles := radius })
    | _, _ => (400, current)

/-- C3 exhibit: the out-of-range centre `{lat:91, lon:0}` is rejected with
400 and the stored region stays exactly as it was — but a body with
`radiusMiles = 0`, which the §3 invariant `0 < radiusMiles` brands invalid,
is *accepted*: `radiusMiles || 3` coerces the falsy `0` to the default `3`
before the `radius <= 0` guard can fire, so the handler answers 200 and
replaces the region (here with centre `{lat:33, lon:-111}` and radius `3`). -/
theorem handlePostRegion_exhibit :
    handlePostRegion
      { center := some { lat := some 91, lon := some 0 }, radiusMiles := some 3 }
      DEFAULT_REGION = (400, DEFAULT_REGION) ∧
    handlePostRegion
      { center := some { lat := some 33, lon := some (-111) }, radiusMiles := some 0 }
      DEFAULT_REGION
      = (200, { center := { lat := 33, lon := -111 }, radiusMiles := 3 }) ∧
    (handlePostRegion
      { center := some { lat := some 33, lon := some (-111) }, radiusMiles := some 0 }
      DEFAULT_REGION).2 ≠ DEFAULT_REGION := by
  have h200 : handlePostRegion
      { center := some { lat := some 33, lon := some (-111) }, radiusMiles := some 0 }
      DEFAULT_REGION
      = (200, { center := { lat := 33, lon := -111 }, radiusMiles := 3 }) := by
    simp only [handlePostRegion]
    norm_num
  refine ⟨?_, h200, ?_⟩
  · simp only [handlePostRegion]
    norm_num
  · rw [h200]
    intro h
    have hl := congrArg (fun r => r.center.lat) h
    norm_num [DEFAULT_REGION] at hl

/-! ### RateLimiter and the fetch cycle (`fetchOpenSkyData`)

JS (`src/unnamed/part_003`, lines 372-376 and 531-616).  Module globals
`lastApiCall`, `lastMapChangeApiCall` (both `0` at start),
`API_CALL_INTERVAL` (mutable, default 30000) and
`MAP_CHANGE_API_INTERVAL = 3000`.  The upstream fetch and the single 401
retry are passed in as explicit outcomes, exactly as the code would observe
them in sequence: `grant1`/`fetch1` for the first attempt, `grant2`/`fetch2`
for the retry path.
-/

def MAP_CHANGE_API_INTERVAL : Int := 3000

structure GatewayState where
  lastApiCall : Int
  lastMapChangeApiCall : Int
  tokenCache : TokenCache
deriving DecidableEq

/-- Outcome of one `fetch` of `/api/states/all`: `thrown` is a rejected
promise (network failure); `response ok status states` is a settled HTTP
response whose JSON carries `data.states` (`none` models a missing/null
`states` field, turned into `[]` by `data.states || []`). -/
inductive HttpOutcome where
  | thrown
  | response (ok : Bool) (status : Nat) (states : Option (List RawFlight))
deriving DecidableEq

/-- `if (isMapChange) { lastMapChangeApiCall = now } else { lastApiCall = now }`. -/
def updateLastCall (st : GatewayState) (isMapChange : Bool) (now : Int) : GatewayState :=
  if isMapChange then { st with lastMapChangeApiCall := now }
  else { st with lastApiCall := now }

/-- `fetchOpenSkyData(clientId, clientSecret, isMapChange)`: returns the
value the JS promise resolves to (`none` for a rate-limit skip or any caught
error, `some states` on success) together with the module state afterwards.

The timestamp update sits *after* `await fetch(url, …)` resolves: it runs
for any settled HTTP response (ok or not), but is skipped entirely when
`getAccessToken` throws or the fetch itself rejects, in which case control
jumps to the `catch` block with the timestamps untouched. -/
def fetchOpenSkyData (st : GatewayState) (apiCallInterval : Int) (now : Int)
    (isMapChange : Bool) (grant1 : GrantResult) (fetch1 : HttpOutcome)
    (grant2 : GrantResult) (fetch2 : HttpOutcome) :
    Option (List RawFlight) × GatewayState :=
  let rateLimitInterval := if isMapChange then MAP_CHANGE_API_INTERVAL else apiCallInterval
  let lastCallTime := if isMapChange then st.lastMapChangeApiCall else st.lastApiCall
  if now - lastCallTime < rateLimitInterval then (none, st)
  else
    match getAccessToken st.tokenCache now grant1 with
    | (.error _, tc1, _) => (none, { st with tokenCache := tc1 })
    | (.ok _, tc1, _) =>
      let st1 := { st with tokenCache := tc1 }
      match fetch1 with
      | .thrown => (none, st1)
      | .response ok status states =>
        let st2 := updateLastCall st1 isMapChange now
        if ok then (some (states.getD []), st2)
        else if status = 401 then
          let st3 := { st2 with tokenCache := { token := none, expiresAt := 0 } }
          match getAccessToken st3.tokenCache now grant2 with
          | (.error _, tc2, _) => (none, { st3 with tokenCache := tc2 })
          | (.ok _, tc2, _) =>
            let st4 := { st3 with tokenCache := tc2 }
            match fetch2 with
            | .thrown => (none, st4)
            | .response ok2 _ states2 =>
              if ok2 then (some (states2.getD []), st4)
              else (none, st4)
        else (none, st2)

/-- C1 exhibit: with the gate open (`now - lastApiCall = 1000000 ≥ 30000`),
a failing token grant (first case) or a rejected upstream fetch (second
case) leaves `lastApiCall` at `0` — the gate does *not* close on those
attempts, and the very next call is again allowed — while a settled non-2xx
response (third case) does update `lastApiCall` to `now`.  This contradicts
both the claim and the code's own `catch`-comment `lastApiCall already
updated above`. -/
theorem fetchOpenSkyData_gate_exhibit :
    (fetchOpenSkyData
        { lastApiCall := 0, lastMapChangeApiCall := 0,
          tokenCache := { token := none, expiresAt := 0 } }
        30000 1000000 false .httpError .thrown .httpError .thrown).2.lastApiCall = 0 ∧
    (fetchOpenSkyData
        { lastApiCall := 0, lastMapChangeApiCall := 0,
          tokenCache := { token := none, expiresAt := 0 } }
        30000 1000000 false (.ok "tok") .thrown .httpError .thrown).2.lastApiCall = 0 ∧
    (fetchOpenSkyData
        { lastApiCall := 0, lastMapChangeApiCall := 0,
          tokenCache := { token := none, expiresAt := 0 } }
        30000 1000000 false (.ok "tok") (.response false 500 none) .httpError
        .thrown).2.lastApiCall = 1000000 ∧
    (fetchOpenSkyData
        { lastApiCall := 0, lastMapChangeApiCall := 0,
          tokenCache := { token := none, expiresAt := 0 } }
        30000 1000000 false (.ok "tok") .thrown .httpError .thrown).1 = none := by
  refine ⟨rfl, rfl, rfl, rfl⟩

/-! ### GeoMath: `calculateDistance` and `isPointInRegion`

JS (`src/unnamed/part_003`, lines 433-470).  This is genuine floating-point
trigonometry (`Math.sin`, `Math.cos`, `Math.sqrt`, `Math.atan2`); it is
modelled over `ℝ` in the usual real-valued idealisation.  The malformation
guards run *before* any arithmetic: a missing region or centre, a
non-numeric radius, and a non-numeric or NaN coordinate each return `false`.
A NaN radius passes the `typeof` check but then fails the final comparison
(every comparison with NaN is false in JS), so it also yields `false`; it is
modelled by the `nan` constructor below.
-/

/-- A JS value in a numeric position: a (non-NaN) number, `NaN`, or a value
of some other type (`typeof x !== 'number'`). -/
inductive JSNumber where
  | num (x : ℝ)
  | nan
  | other

/-- `typeof x === 'number'` (true for NaN as well). -/
def JSNumber.isNumber : JSNumber → Bool
  | .num _ => true
  | .nan => true
  | .other => false

structure GeoCenter where
  lat : ℝ
  lon : ℝ

/-- A region object as `isPointInRegion` inspects it: `center` may be absent;
`radiusMiles` is an arbitrary JS value. -/
structure RegionJS where
  center : Option GeoCenter
  radiusMiles : JSNumber

/-- `Math.atan2(y, x)` (signed-zero subtleties aside, which the Haversine
path never hits: its arguments are non-negative square roots). -/
noncomputable def atan2 (y x : ℝ) : ℝ :=
  if 0 < x then Real.arctan (y / x)
  else if x < 0 then
    (if 0 ≤ y then Real.arctan (y / x) + Real.pi else Real.arctan (y / x) - Real.pi)
  else
    (if 0 < y then Real.pi / 2 else if y < 0 then -(Real.pi / 2) else 0)

/-- `calculateDistance(lat1, lon1, lat2, lon2)`: Haversine great-circle
distance in miles with Earth radius `R = 3959`. -/
noncomputable def calculateDistance (lat1 lon1 lat2 lon2 : ℝ) : ℝ :=
  let R : ℝ := 3959
  let dLat := (lat2 - lat1) * Real.pi / 180
  let dLon := (lon2 - lon1) * Real.pi / 180
  let a :=
    Real.sin (dLat / 2) * Real.sin (dLat / 2) +
      Real.cos (lat1 * Real.pi / 180) * Real.cos (lat2 * Real.pi / 180) *
        Real.sin (dLon / 2) * Real.sin (dLon / 2)
  let c := 2 * atan2 (Real.sqrt a) (Real.sqrt (1 - a))
  R * c

/-- `isPointInRegion(latitude, longitude, region)`: guards first, then the
distance comparison.  Total by construction — every malformed shape falls
into a `false` branch rather than an exception. -/
noncomputable def isPointInRegion (latitude longitude : JSNumber)
    (region : Option RegionJS) : Bool :=
  match region with
  | none => false
  | some r =>
    match r.center with
    | none => false
    | some c =>
      if r.radiusMiles.isNumber = false then false
      else
        match latitude, longitude with
        | .num lat, .num lon =>
          match r.radiusMiles with
          | .num rad => decide (calculateDistance c.lat c.lon lat lon ≤ rad)
          | _ => false
        | _, _ => false

/-- C7: `isPointInRegion` returns `true` exactly when the region is present
with a centre, the radius is a (non-NaN) number, both coordinates are
(non-NaN) numbers, and the Haversine distance from the centre to the point
is at most the radius; on every malformed input — and for a NaN radius —
it returns `false`, and being a total function it never throws. -/
theorem isPointInRegion_iff_distance_le (latitude longitude : JSNumber)
    (region : Option RegionJS) :
    isPointInRegion latitude longitude region = true ↔
      ∃ (r : RegionJS) (c : GeoCenter) (lat lon rad : ℝ),
        region = some r ∧ r.center = some c ∧
        latitude = .num lat ∧ longitude = .num lon ∧
        r.radiusMiles = .num rad ∧
        calculateDistance c.lat c.lon lat lon ≤ rad := by
  rcases region with _ | ⟨rc, rrad⟩
  · simp [isPointInRegion]
  rcases rc with _ | c
  · simp [isPointInRegion]
  rcases rrad with x | _ | _ <;>
    rcases latitude with lat | _ | _ <;>
    rcases longitude with lon | _ | _ <;>
    simp [isPointInRegion, JSNumber.isNumber]
